import Mathlib

/-!
Verification of the normalization and path-resolution logic of the
eprem-analysis repository (two CLI plotting scripts, `flux-energy.py` and
`stream-survey.py`, plus `support/observers.py`).

The Python value universe is shallowly embedded as `Val`; fallible Python
code is embedded as `Except Err _`.  Python floats are modelled as exact
rationals: none of the verified properties depend on rounding, only on
which branch each normalizer takes and on the structure of the results.
-/

set_option autoImplicit false

/-- A unit-tagged measurement, as produced by the external `eprempy.quantity`
system: one or more magnitudes sharing a single unit string. -/
structure Measurement where
  magnitudes : List ℚ
  unit : String
deriving DecidableEq, Repr

/-- The universe of Python values that flow through the scripts' helper
functions: the null marker `None`, integers, floats (modelled as exact
rationals), strings, lists/tuples, and external measurement objects. -/
inductive Val where
  | none
  | vint (n : Int)
  | vfloat (q : ℚ)
  | vstr (s : String)
  | vlist (xs : List Val)
  | vmeas (m : Measurement)

/-- Python exceptions raised by the embedded code. -/
inductive Err where
  | typeError (v : Val)
  | valueError (v : Val)
  | indexError (v : Val)
  | unitError (u1 u2 : String)

/-- The `user` keyword-argument dictionary: an association list from option
names to values (argparse inserts an explicit `None` for unset options). -/
abbrev Dict := List (String × Val)

/-- `user.get(k)`: the stored value when the key is present, the null marker
when it is absent.  This is exactly Python's `dict.get` with default `None`,
so an absent key and a key explicitly mapped to `None` are indistinguishable
downstream, as the scripts' own comments require. -/
def dget (d : Dict) (k : String) : Val :=
  match d.lookup k with
  | some v => v
  | Option.none => Val.none

/-- Value of a digit string (most significant first). -/
def digitsToNat (cs : List Char) : Nat :=
  cs.foldl (fun a c => 10 * a + (c.toNat - 48)) 0

/-- Strip leading and trailing whitespace from a character list (the
whitespace-stripping `float`/`int` apply to their string argument). -/
def trimWS (cs : List Char) : List Char :=
  ((cs.dropWhile Char.isWhitespace).reverse.dropWhile Char.isWhitespace).reverse

/-- Strip an optional leading sign, returning the sign as `1` or `-1`. -/
def parseSign : List Char → Int × List Char
  | '+' :: cs => (1, cs)
  | '-' :: cs => (-1, cs)
  | cs => (1, cs)

/-- Parse an unsigned decimal mantissa `digits [. digits]` (at least one
digit, at most one point) into a numerator and a power-of-ten
denominator. -/
def parseMantissa (cs : List Char) : Option (Nat × Nat) :=
  if cs.any (fun c => !(c.isDigit || c == '.')) then Option.none
  else if cs.count '.' > 1 then Option.none
  else
    let digs := cs.filter Char.isDigit
    if digs.isEmpty then Option.none
    else
      let frac := (cs.dropWhile (fun c => c != '.')).drop 1
      some (digitsToNat digs, 10 ^ frac.length)

/-- Model of Python's `float(str)` on plain decimal literals:
`[+-] digits [. digits] [(e|E) [+-] digits]`, with surrounding whitespace
stripped.  (The special spellings `inf`/`nan` and digit underscores are not
modelled; no input the scripts handle uses them.)  The value is assembled
with `mkRat` so that it evaluates definitionally. -/
def parseFloat (s : String) : Option ℚ :=
  let cs := trimWS s.data
  let (sg, cs) := parseSign cs
  let mant := cs.takeWhile (fun c => c != 'e' && c != 'E')
  let rest := cs.dropWhile (fun c => c != 'e' && c != 'E')
  match parseMantissa mant with
  | Option.none => Option.none
  | some (n, d) =>
    match rest with
    | [] => some (mkRat (sg * (n : Int)) d)
    | _ :: ecs =>
      let (esg, ecs) := parseSign ecs
      if ecs.isEmpty || ecs.any (fun c => !c.isDigit) then Option.none
      else
        let e := digitsToNat ecs
        if 0 ≤ esg then some (mkRat (sg * (n : Int) * (10 : Int) ^ e) d)
        else some (mkRat (sg * (n : Int)) (d * 10 ^ e))

/-- Model of Python's `int(str)`: optional sign then a nonempty digit string
(so `int("2.5")` fails with `ValueError`, unlike `float`). -/
def parseIntStr (s : String) : Option Int :=
  let cs := trimWS s.data
  let (sg, cs) := parseSign cs
  if cs.isEmpty || cs.any (fun c => !c.isDigit) then Option.none
  else some (sg * (digitsToNat cs : Int))

/-- Truncation of a rational toward zero, Python's `int(float)` (the
denominator is positive, so this is t-division of the parts). -/
def ratTrunc (q : ℚ) : Int :=
  q.num.tdiv q.den

/-- Multiplication of rationals spelled via `mkRat` so that it evaluates
definitionally (`Rat.mul` is irreducible); it has the same value. -/
def ratMul (a b : ℚ) : ℚ :=
  mkRat (a.num * b.num) (a.den * b.den)

/-- Python's `float(x)` builtin: identity on floats, exact on ints, decimal
parsing on strings (`ValueError` on parse failure), scalar conversion on
single-valued measurements, `TypeError` on anything else. -/
def pyFloat : Val → Except Err ℚ
  | .vint n => .ok (mkRat n 1)
  | .vfloat q => .ok q
  | .vstr s =>
    match parseFloat s with
    | some q => .ok q
    | Option.none => .error (.valueError (.vstr s))
  | .vmeas m =>
    match m.magnitudes with
    | [q] => .ok q
    | _ => .error (.typeError (.vmeas m))
  | v => .error (.typeError v)

/-- Python's `int(x)` builtin: identity on ints, truncation on floats,
integer-literal parsing on strings (`ValueError` on failure), `TypeError`
otherwise. -/
def pyInt : Val → Except Err Int
  | .vint n => .ok n
  | .vfloat q => .ok (ratTrunc q)
  | .vstr s =>
    match parseIntStr s with
    | some n => .ok n
    | Option.none => .error (.valueError (.vstr s))
  | v => .error (.typeError v)

/-- Python's `len(x)` on the sized values the scripts use. -/
def pyLen : Val → Except Err Nat
  | .vstr s => .ok s.length
  | .vlist xs => .ok xs.length
  | .vmeas m => .ok m.magnitudes.length
  | v => .error (.typeError v)

/-- Python subscripting `x[i]` with negative-index wraparound, raising
`IndexError` out of range and `TypeError` on non-sequences. -/
def pyIndex (v : Val) (i : Int) : Except Err Val :=
  match v with
  | .vlist xs =>
    let j := if i < 0 then i + xs.length else i
    if h : 0 ≤ j ∧ j.toNat < xs.length then .ok (xs.get ⟨j.toNat, h.2⟩)
    else .error (.indexError v)
  | .vstr s =>
    let cs := s.data
    let j := if i < 0 then i + cs.length else i
    if h : 0 ≤ j ∧ j.toNat < cs.length then .ok (.vstr (String.singleton (cs.get ⟨j.toNat, h.2⟩)))
    else .error (.indexError v)
  | _ => .error (.typeError v)

/-- Python slicing `x[:-1]` (everything but the last element). -/
def pySliceInit : Val → Except Err Val
  | .vlist xs => .ok (.vlist xs.dropLast)
  | .vstr s => .ok (.vstr (String.mk s.data.dropLast))
  | v => .error (.typeError v)

/-- Python iteration over a sequence, as used by `tuple(x)` and
comprehensions: lists yield their elements, strings their characters. -/
def pyIter : Val → Except Err (List Val)
  | .vlist xs => .ok xs
  | .vstr s => .ok (s.data.map (fun c => .vstr (String.singleton c)))
  | v => .error (.typeError v)

/-- Python truthiness, as used by `if radius := user.get('radius')`. -/
def pyTruthy : Val → Bool
  | .none => false
  | .vint n => n != 0
  | .vfloat q => q.num != 0
  | .vstr s => !s.isEmpty
  | .vlist xs => !xs.isEmpty
  | .vmeas m => !m.magnitudes.isEmpty

/-- Render a rational the way Python renders the corresponding float: an
exact decimal expansion with at least one digit on each side of the point
(`2.5`, `0.1`, `1.0`).  Rationals whose denominator is not a power of ten
cannot arise from decimal inputs and fall back to a fraction form. -/
def ratStr (q : ℚ) : String :=
  let sign := if q.num < 0 then "-" else ""
  let n := q.num.natAbs
  let d := q.den
  if d = 1 then sign ++ toString n ++ ".0"
  else
    match (List.range 64).find? (fun k => 10 ^ k % d = 0) with
    | some k =>
      let cs := Nat.toDigits 10 (n * (10 ^ k / d))
      let cs := List.replicate (k + 1 - cs.length) '0' ++ cs
      sign ++ String.mk (cs.take (cs.length - k)) ++ "." ++ String.mk (cs.drop (cs.length - k))
    | Option.none => sign ++ toString n ++ "/" ++ toString d

mutual

/-- Python's `str(x)` as used inside the scripts' f-strings.  Only scalar
values reach it on the verified paths; containers get a structural
rendering. -/
def pyStr : Val → String
  | .none => "None"
  | .vint n => toString n
  | .vfloat q => ratStr q
  | .vstr s => s
  | .vlist xs => "[" ++ pyStrList xs ++ "]"
  | .vmeas m => "[" ++ String.intercalate ", " (m.magnitudes.map ratStr) ++ "] " ++ m.unit

/-- Comma-separated rendering of a list of values. -/
def pyStrList : List Val → String
  | [] => ""
  | [x] => pyStr x
  | x :: xs => pyStr x ++ ", " ++ pyStrList xs

end

/-- Modelled from the spec: the external `quantity.measure` constructor
(`eprempy.quantity`, not part of this repository) "taking magnitude(s) and a
unit string" (spec section 6).  A single leading list argument is unpacked, the
final argument is the unit string, and every preceding argument is converted
to a float magnitude. -/
def measureExpand : List Val → List Val
  | [.vlist xs, u] => xs ++ [u]
  | args => args

/-- Continuation of the `quantity.measure` model: after expansion the final
argument is the unit string and the preceding arguments are converted to
float magnitudes. -/
def pymeasure (args : List Val) : Except Err Measurement :=
  match (measureExpand args).getLast? with
  | some (.vstr u) =>
    match ((measureExpand args).dropLast).mapM pyFloat with
    | .ok mags => .ok ⟨mags, u⟩
    | .error e => .error e
  | some v => .error (.typeError v)
  | Option.none => .error (.valueError (.vlist args))

/-- Modelled from the spec: unit conversion on measurements (external
`Measurement.withunit`).  Only the factors the scripts can exercise
decidably are tabulated; converting between identical units is the
identity. -/
def convFactor (a b : String) : Option ℚ :=
  if a = b then some 1 else Option.none

/-- Modelled from the spec: `m.withunit(u)` converts a measurement "to a
single measurement in a fixed display unit" (spec section 4.2); unknown
conversions raise. -/
def Measurement.withunit (m : Measurement) (u : String) : Except Err Measurement :=
  match convFactor m.unit u with
  | some f => .ok ⟨m.magnitudes.map (fun q => ratMul q f), u⟩
  | Option.none => .error (.unitError m.unit u)

namespace FluxEnergy

/-!  Embedding of `src/flux-energy.py`. -/

/-- `get_time` (flux-energy.py lines 175-184): fetch an appropriate time
index from user input.  `None` gives index 0; a one-element list gives
`int` of its element; a two-element list gives the pair
`(float(time[0]), time[1])`; any other length raises `ValueError(time)`. -/
def get_time (user : Dict) : Except Err Val :=
  match dget user "time" with
  | .none => .ok (.vint 0)
  | time =>
    match pyLen time with
    | .error e => .error e
    | .ok n =>
      if n = 1 then
        match pyIndex time 0 with
        | .error e => .error e
        | .ok v =>
          match pyInt v with
          | .error e => .error e
          | .ok i => .ok (.vint i)
      else if n = 2 then
        match pyIndex time 0 with
        | .error e => .error e
        | .ok v =>
          match pyFloat v with
          | .error e => .error e
          | .ok q =>
            match pyIndex time 1 with
            | .error e => .error e
            | .ok u => .ok (.vlist [.vfloat q, u])
      else .error (.valueError time)

/-- `get_shell` (flux-energy.py lines 187-192): `None` gives the empty
tuple; otherwise `tuple(shell)` — the supplied values pass through
unconverted (the CLI layer, not this function, applies `type=int`). -/
def get_shell (user : Dict) : Except Err Val :=
  match dget user "shell" with
  | .none => .ok (.vlist [])
  | shell =>
    match pyIter shell with
    | .error e => .error e
    | .ok xs => .ok (.vlist xs)

/-- `get_radius` (flux-energy.py lines 195-208): `None` gives the empty
tuple; a one-element list gives `measure(radius[0], 'au')`; otherwise, if
`float(radius[-1])` raises `ValueError` the last element is the unit and
the preceding elements are float magnitudes; if it parses, the whole list
is measured under the default unit `'au'`. -/
def get_radius (user : Dict) : Except Err Val :=
  match dget user "radius" with
  | .none => .ok (.vlist [])
  | radius =>
    match pyLen radius with
    | .error e => .error e
    | .ok n =>
      if n = 1 then
        match pyIndex radius 0 with
        | .error e => .error e
        | .ok v =>
          match pymeasure [v, .vstr "au"] with
          | .error e => .error e
          | .ok m => .ok (.vmeas m)
      else
        match pyIndex radius (-1) with
        | .error e => .error e
        | .ok last =>
          match pyFloat last with
          | .ok _ =>
            match pymeasure [radius, .vstr "au"] with
            | .error e => .error e
            | .ok m => .ok (.vmeas m)
          | .error (.valueError _) =>
            match pySliceInit radius with
            | .error e => .error e
            | .ok init =>
              match pyIter init with
              | .error e => .error e
              | .ok elems =>
                match elems.mapM pyFloat with
                | .error e => .error e
                | .ok values =>
                  match pymeasure (values.map Val.vfloat ++ [last]) with
                  | .error e => .error e
                  | .ok m => .ok (.vmeas m)
          | .error e => .error e

/-- The output-path construction at the end of `main` (flux-energy.py
lines 45-47): `plotdir / f'stream{num}_flux-t{time[0]}h.png'`, applied to
the already-resolved time spec returned by `get_time`.  Note that the
subscript `time[0]` is evaluated on the resolved value, which is a plain
`int` whenever `--time` was absent or single-valued. -/
def main_plotpath (plotdir : String) (num : Int) (time : Val) : Except Err String :=
  match pyIndex time 0 with
  | .error e => .error e
  | .ok t0 => .ok (plotdir ++ "/" ++ "stream" ++ toString num ++ "_flux-t" ++ pyStr t0 ++ "h.png")

/-- The `runs` argument of `build_paths`: a single glob-pattern string or
an explicit list of names. -/
inductive Runs where
  | str (s : String)
  | list (xs : List String)

/-- `len(runs)`: string length for a string, list length for a list. -/
def Runs.len : Runs → Nat
  | .str s => s.length
  | .list xs => xs.length

/-- `runs[0]`: the first character (as a string) of a string, the first
element of a list.  Only consulted when `len(runs) == 1`. -/
def Runs.first : Runs → String
  | .str s => String.mk (s.data.take 1)
  | .list xs => xs.headD ""

/-- Iterating over `runs`: a string yields its characters, a list its
elements. -/
def Runs.toList : Runs → List String
  | .str s => s.data.map String.singleton
  | .list xs => xs

/-- An abstract view of the filesystem facts `build_paths` consults:
the current working directory, the directory test `Path.is_dir`, glob
matching (`p.glob(pattern)`, yielding matches prefixed by `p`, with `'*'`
listing a directory's immediate contents), and the external `fullpath`
resolution helper. -/
structure FS where
  cwd : String
  isDir : String → Bool
  glob : String → String → List String
  full : String → String

/-- `path / run` on pathlib paths: an absolute right operand replaces the
left one (glob matches are already full paths). -/
def pyJoin (a b : String) : String :=
  if b.data.head? = some '/' then b else a ++ "/" ++ b

/-- `build_paths` (flux-energy.py lines 54-83): convert user input into
full run-directory paths.  (With no base directory and a glob-pattern
string the source returns a lazy generator; we model the sequence of paths
it yields.) -/
def build_paths (fs : FS) (indir : Option String) (runs : Option Runs) : List String :=
  match indir, runs with
  | Option.none, Option.none => [fs.cwd]
  | Option.none, some (.str s) => (fs.glob fs.cwd s).map fs.full
  | Option.none, some (.list xs) => xs.map fs.full
  | some ind, runsOpt =>
    let path := fs.full ind
    match runsOpt with
    | Option.none =>
      let contents := fs.glob path "*"
      if fs.isDir path && contents.all fs.isDir then contents
      else [path]
    | some rs =>
      if rs.len = 1 then (fs.glob path rs.first).map (pyJoin path)
      else rs.toList.map (pyJoin path)

/-- A concrete filesystem view in which every path is a directory, globbing
matches nothing, and `fullpath` is the identity. -/
def fsEmptyGlob : FS :=
  ⟨"/cwd", fun _ => true, fun _ _ => [], fun s => s⟩

/-- A concrete filesystem view whose directories contain one subdirectory
and one plain file. -/
def fsMixed : FS :=
  ⟨"/cwd", fun p => p != "/base/file", fun _ _ => ["/base/dir", "/base/file"], fun s => s⟩

end FluxEnergy

namespace StreamSurvey

/-!  Embedding of `src/stream-survey.py`. -/

/-- The slice of an `eprem.Stream` observer that `make_suptitle` reads:
the dataset's species symbols (`stream.species.data`). -/
structure Stream where
  species : List String

/-- `stream.species.data[i]` with Python negative-index wraparound;
out-of-range indices raise `IndexError`. -/
def speciesData (st : Stream) (i : Int) : Except Err String :=
  let xs := st.species
  let j := if i < 0 then i + xs.length else i
  if h : 0 ≤ j ∧ j.toNat < xs.length then .ok (xs.get ⟨j.toNat, h.2⟩)
  else .error (.indexError (.vint i))

/-- `get_location` (stream-survey.py lines 75-82): a non-`None` shell value
passes through (explicitly allowing 0); otherwise a truthy radius value is
converted via `measure(float(radius[0]), radius[1]).withunit('au')`; the
default is shell index 0. -/
def get_location (user : Dict) : Except Err Val :=
  match dget user "shell" with
  | .none =>
    let radius := dget user "radius"
    if pyTruthy radius then
      match pyIndex radius 0 with
      | .error e => .error e
      | .ok r0 =>
        match pyFloat r0 with
        | .error e => .error e
        | .ok q =>
          match pyIndex radius 1 with
          | .error e => .error e
          | .ok r1 =>
            match pymeasure [.vfloat q, r1] with
            | .error e => .error e
            | .ok m =>
              match m.withunit "au" with
              | .error e => .error e
              | .ok m2 => .ok (.vmeas m2)
    else .ok (.vint 0)
  | shell => .ok shell

/-- `get_species` (stream-survey.py lines 85-90): a non-`None` species
value passes through (explicitly allowing 0); the default is index 0. -/
def get_species (user : Dict) : Except Err Val :=
  match dget user "species" with
  | .none => .ok (.vint 0)
  | species => .ok species

/-- `make_suptitle` (stream-survey.py lines 93-111): a measurement location
formats as `radius = {float(location)} {location.unit}`, an integer one as
`shell = {location}`, anything else raises `TypeError`; an integer species
formats via `stream.species.data[species]`, a string species verbatim,
anything else raises `TypeError`. -/
def make_suptitle (stream : Stream) (location : Val) (species : Val) : Except Err String :=
  let locpart : Except Err String :=
    match location with
    | .vmeas m =>
      match pyFloat (.vmeas m) with
      | .error e => .error e
      | .ok q => .ok ("radius = " ++ ratStr q ++ " " ++ m.unit)
    | .vint n => .ok ("shell = " ++ toString n)
    | v => .error (.typeError v)
  match locpart with
  | .error e => .error e
  | .ok strloc =>
    let spepart : Except Err String :=
      match species with
      | .vint n =>
        match speciesData stream n with
        | .error e => .error e
        | .ok sym => .ok ("species = " ++ sym)
      | .vstr s => .ok ("species = " ++ s)
      | v => .error (.typeError v)
    match spepart with
    | .error e => .error e
    | .ok strspe => .ok (strloc ++ " | " ++ strspe)

end StreamSurvey

namespace Observers

/-!  Embedding of `src/support/observers.py`. -/

/-- `get_location` (support/observers.py lines 4-11): textually identical
to the stream-survey copy. -/
def get_location (user : Dict) : Except Err Val :=
  match dget user "shell" with
  | .none =>
    let radius := dget user "radius"
    if pyTruthy radius then
      match pyIndex radius 0 with
      | .error e => .error e
      | .ok r0 =>
        match pyFloat r0 with
        | .error e => .error e
        | .ok q =>
          match pyIndex radius 1 with
          | .error e => .error e
          | .ok r1 =>
            match pymeasure [.vfloat q, r1] with
            | .error e => .error e
            | .ok m =>
              match m.withunit "au" with
              | .error e => .error e
              | .ok m2 => .ok (.vmeas m2)
    else .ok (.vint 0)
  | shell => .ok shell

/-- `get_species` (support/observers.py lines 14-19): textually identical
to the stream-survey copy. -/
def get_species (user : Dict) : Except Err Val :=
  match dget user "species" with
  | .none => .ok (.vint 0)
  | species => .ok species

end Observers

/-!  ## Claim theorems -/

namespace FluxEnergy

/-- C1: for every input dictionary, `get_time` returns index 0 when the
`'time'` entry is absent or null; the single value converted to an integer
when the entry has exactly one element; the pair of the float of the first
element and the unchanged second element when it has exactly two; and
raises `ValueError` for any other length. -/
theorem get_time_spec (d : Dict) :
    (dget d "time" = .none → get_time d = .ok (.vint 0)) ∧
    (∀ v n, dget d "time" = .vlist [v] → pyInt v = .ok n →
      get_time d = .ok (.vint n)) ∧
    (∀ v u q, dget d "time" = .vlist [v, u] → pyFloat v = .ok q →
      get_time d = .ok (.vlist [.vfloat q, u])) ∧
    (∀ xs, dget d "time" = .vlist xs → xs.length ≠ 1 → xs.length ≠ 2 →
      get_time d = .error (.valueError (.vlist xs))) := by
  refine ⟨fun h => ?_, fun v n h hv => ?_, fun v u q h hv => ?_, fun xs h h1 h2 => ?_⟩
  · simp [get_time, h]
  · simp [get_time, h, pyLen, pyIndex, hv]
  · simp [get_time, h, pyLen, pyIndex, hv]
  · simp [get_time, h, pyLen, h1, h2]

/-- Witness for C1 at concrete inputs: a singleton time list gives its
integer value, a two-element list gives the float/unit pair. -/
theorem get_time_spec_witness :
    get_time [("time", .vlist [.vstr "5"])] = .ok (.vint 5) ∧
    get_time [("time", .vlist [.vstr "2.5", .vstr "hour"])]
      = .ok (.vlist [.vfloat (mkRat 5 2), .vstr "hour"]) ∧
    get_time [("time", .vlist [.vint 1, .vint 2, .vint 3])]
      = .error (.valueError (.vlist [.vint 1, .vint 2, .vint 3])) :=
  ⟨(get_time_spec _).2.1 (.vstr "5") 5 rfl rfl,
   (get_time_spec _).2.2.1 (.vstr "2.5") (.vstr "hour") (mkRat 5 2) rfl rfl,
   (get_time_spec _).2.2.2 [.vint 1, .vint 2, .vint 3] rfl (by decide) (by decide)⟩

end FluxEnergy

/-!  ### Shared helper lemmas about the Python builtins -/

/-- Subscripting a list whose last element is known with index `-1` yields
that element. -/
theorem pyIndex_last (xs : List Val) (x : Val) :
    pyIndex (.vlist (xs ++ [x])) (-1) = .ok x := by
  have hl : (xs ++ [x]).length = xs.length + 1 := by simp
  have hcond : (0 : Int) ≤ -1 + ((xs ++ [x]).length : Int) ∧
      ((-1 : Int) + ((xs ++ [x]).length : Int)).toNat < (xs ++ [x]).length := by
    rw [hl]; omega
  have hidx : ((-1 : Int) + ((xs ++ [x]).length : Int)).toNat = xs.length := by
    rw [hl]; omega
  simp only [pyIndex, if_pos (by decide : (-1 : Int) < 0), dif_pos hcond,
    List.get_eq_getElem]
  simp only [hidx]
  rw [List.getElem_concat_length xs x _ rfl]

/-- Subscripting a nonempty list with index `0` yields its head. -/
theorem pyIndex_zero_cons (v : Val) (vs : List Val) :
    pyIndex (.vlist (v :: vs)) 0 = .ok v := by
  have hcond : (0 : Int) ≤ 0 ∧ (0 : Int).toNat < (v :: vs).length := by
    simp
  simp only [pyIndex, if_neg (by decide : ¬ (0 : Int) < 0), dif_pos hcond]
  rfl

/-- Converting a list of float values back to floats is the identity. -/
theorem mapM_pyFloat_vfloat (qs : List ℚ) :
    (qs.map Val.vfloat).mapM pyFloat = .ok qs := by
  induction qs with
  | nil => rfl
  | cons q qs ih =>
    rw [List.map_cons, List.mapM_cons, show pyFloat (Val.vfloat q) = Except.ok q from rfl, ih]
    rfl

/-- Conversion of a list with a known convertible last element. -/
theorem mapM_concat_ok (ys : List Val) (y : Val) (qys : List ℚ) (qy : ℚ)
    (h1 : ys.mapM pyFloat = .ok qys) (h2 : pyFloat y = .ok qy) :
    (ys ++ [y]).mapM pyFloat = .ok (qys ++ [qy]) := by
  rw [List.mapM_append, h1, List.mapM_cons, h2, List.mapM_nil]
  rfl

/-- The argument expansion of `measure` leaves a two-element argument list
alone when the first argument is not a Python list. -/
theorem measureExpand_nonlist (v : Val) (u : Val) (hnl : ∀ ws, v ≠ .vlist ws) :
    measureExpand [v, u] = [v, u] := by
  cases v with
  | vlist ws => exact absurd rfl (hnl ws)
  | none => rfl
  | vint n => rfl
  | vfloat q => rfl
  | vstr s => rfl
  | vmeas m => rfl

/-- The argument expansion of `measure` leaves float magnitudes followed by
a unit string alone. -/
theorem measureExpand_mags (qs : List ℚ) (u : String) :
    measureExpand (qs.map Val.vfloat ++ [.vstr u]) = qs.map Val.vfloat ++ [.vstr u] := by
  cases qs with
  | nil => rfl
  | cons q qs2 => cases qs2 <;> rfl

/-- `measure(v, u)` for a convertible non-list magnitude argument. -/
theorem pymeasure_single (v : Val) (q : ℚ) (u : String) (hv : pyFloat v = .ok q)
    (hnl : ∀ ws, v ≠ .vlist ws) :
    pymeasure [v, .vstr u] = .ok ⟨[q], u⟩ := by
  simp only [pymeasure, measureExpand_nonlist v (.vstr u) hnl]
  rw [show ([v, Val.vstr u].getLast?) = some (Val.vstr u) from rfl,
    show ([v, Val.vstr u].dropLast) = [v] from rfl, List.mapM_cons, hv, List.mapM_nil]
  rfl

/-- `measure(*values, unit)` for float magnitudes and a unit string. -/
theorem pymeasure_mags (qs : List ℚ) (u : String) :
    pymeasure (qs.map Val.vfloat ++ [.vstr u]) = .ok ⟨qs, u⟩ := by
  simp only [pymeasure, measureExpand_mags]
  rw [List.getLast?_concat, List.dropLast_concat, mapM_pyFloat_vfloat]

/-- `measure(list, unit)` unpacks the list into magnitudes. -/
theorem pymeasure_list (xs : List Val) (qs : List ℚ) (u : String)
    (h : xs.mapM pyFloat = .ok qs) :
    pymeasure [.vlist xs, .vstr u] = .ok ⟨qs, u⟩ := by
  simp only [pymeasure, measureExpand]
  rw [List.getLast?_concat, List.dropLast_concat, h]

namespace FluxEnergy

/-- C2 (code bug): the filename construction at the end of `main`
subscripts the resolved time spec with `[0]`, so whenever that spec is a
plain integer index — the default 0, or any single-valued `--time` — it
raises `TypeError` before any figure is saved; only a float/unit pair
reaches the save with the first element formatted positionally. -/
theorem main_plotpath_time_index_crash :
    main_plotpath "/out" 0 (.vint 5) = .error (.typeError (.vint 5)) ∧
    main_plotpath "/out" 0 (.vint 0) = .error (.typeError (.vint 0)) ∧
    main_plotpath "/out" 0 (.vlist [.vfloat (mkRat 5 2), .vstr "hour"])
      = .ok "/out/stream0_flux-t2.5h.png" :=
  ⟨rfl, rfl, rfl⟩

/-- C3: for every input dictionary, `get_radius` returns the empty sequence
when the `'radius'` entry is absent or null; a single convertible value
becomes a one-magnitude measurement with default unit `"au"`; multiple
values whose last element fails float parsing become one measurement with
the preceding elements as magnitudes and that last element as the unit; and
multiple all-convertible values become one measurement under the default
unit `"au"`. -/
theorem get_radius_spec (d : Dict) :
    (dget d "radius" = .none → get_radius d = .ok (.vlist [])) ∧
    (∀ v q, dget d "radius" = .vlist [v] → pyFloat v = .ok q →
      get_radius d = .ok (.vmeas ⟨[q], "au"⟩)) ∧
    (∀ xs u qs, dget d "radius" = .vlist (xs ++ [.vstr u]) → xs ≠ [] →
      parseFloat u = Option.none → xs.mapM pyFloat = .ok qs →
      get_radius d = .ok (.vmeas ⟨qs, u⟩)) ∧
    (∀ ys y qys qy, dget d "radius" = .vlist (ys ++ [y]) → ys ≠ [] →
      pyFloat y = .ok qy → ys.mapM pyFloat = .ok qys →
      get_radius d = .ok (.vmeas ⟨qys ++ [qy], "au"⟩)) := by
  refine ⟨fun h => ?_, fun v q h hv => ?_, fun xs u qs h hxs hpf hmap => ?_,
    fun ys y qys qy h hys hfy hmapys => ?_⟩
  · simp [get_radius, h]
  · have hnl : ∀ ws, v ≠ .vlist ws := by
      intro ws hx; subst hx; simp [pyFloat] at hv
    simp only [get_radius, h, pyLen, List.length_singleton, if_pos rfl, if_true,
      pyIndex_zero_cons, pymeasure_single v q "au" hv hnl]
  · have hlen : (xs ++ [Val.vstr u]).length ≠ 1 := by
      rw [List.length_append, List.length_singleton]
      have : xs.length ≠ 0 := fun h0 => hxs (List.length_eq_zero.mp h0)
      omega
    simp only [get_radius, h, pyLen, if_neg hlen, pyIndex_last,
      pyFloat, hpf, pySliceInit, List.dropLast_concat, pyIter, hmap,
      pymeasure_mags]
  · have hlen : (ys ++ [y]).length ≠ 1 := by
      rw [List.length_append, List.length_singleton]
      have : ys.length ≠ 0 := fun h0 => hys (List.length_eq_zero.mp h0)
      omega
    simp only [get_radius, h, pyLen, if_neg hlen, pyIndex_last, hfy,
      pymeasure_list _ _ _ (mapM_concat_ok ys y qys qy hmapys hfy)]

/-- Witness for C3 at the spec's concrete examples:
`["1.0","2.0","au"]` gives magnitudes 1 and 2 with unit `"au"`, and
`["3.0"]` gives magnitude 3 with the default unit `"au"`. -/
theorem get_radius_spec_witness :
    get_radius [("radius", .vlist [.vstr "1.0", .vstr "2.0", .vstr "au"])]
      = .ok (.vmeas ⟨[mkRat 1 1, mkRat 2 1], "au"⟩) ∧
    get_radius [("radius", .vlist [.vstr "3.0"])]
      = .ok (.vmeas ⟨[mkRat 3 1], "au"⟩) :=
  ⟨(get_radius_spec _).2.2.1 [.vstr "1.0", .vstr "2.0"] "au" [mkRat 1 1, mkRat 2 1]
      rfl (List.cons_ne_nil _ _) rfl rfl,
   (get_radius_spec _).2.1 (.vstr "3.0") (mkRat 3 1) rfl rfl⟩

end FluxEnergy

namespace FluxEnergy

/-- C4 counterexample: `get_shell` applies no integer coercion — a string
entry passes through unchanged, so the claimed conversion to integers fails
on the dictionary mapping `'shell'` to the list `["1"]`. -/
theorem get_shell_no_coercion :
    get_shell [("shell", .vlist [.vstr "1"])] = .ok (.vlist [.vstr "1"]) ∧
    get_shell [("shell", .vlist [.vstr "1"])] ≠ .ok (.vlist [.vint 1]) := by
  refine ⟨rfl, ?_⟩
  intro h
  rw [show get_shell [("shell", .vlist [.vstr "1"])]
    = .ok (.vlist [.vstr "1"]) from rfl] at h
  simp at h

/-- C4 (amended): `get_shell` returns the empty sequence when the `'shell'`
entry is absent or null, and otherwise returns the supplied sequence of
values unchanged, in the original order; the coercion to integers happens
in the CLI layer (`argparse` with `type=int`), not in this function. -/
theorem get_shell_passthrough (d : Dict) :
    (dget d "shell" = .none → get_shell d = .ok (.vlist [])) ∧
    (∀ xs, dget d "shell" = .vlist xs → get_shell d = .ok (.vlist xs)) := by
  constructor
  · intro h; simp [get_shell, h]
  · intro xs h; simp [get_shell, h, pyIter]

/-- Witness for the amended C4: an integer shell list passes through
order-preserved. -/
theorem get_shell_passthrough_witness :
    get_shell [("shell", .vlist [.vint 1, .vint 4])] = .ok (.vlist [.vint 1, .vint 4]) :=
  (get_shell_passthrough _).2 _ rfl

end FluxEnergy

/-- C5: each normalizer treats a key explicitly mapped to the null marker
exactly like an absent key and returns its documented default in both
cases: time 0, shell empty, radius empty, location shell-index 0, species
index 0. -/
theorem normalizers_null_default (d : Dict) :
    (d.lookup "time" = Option.none →
      FluxEnergy.get_time d = .ok (.vint 0) ∧
      FluxEnergy.get_time (("time", Val.none) :: d) = .ok (.vint 0)) ∧
    (d.lookup "shell" = Option.none →
      FluxEnergy.get_shell d = .ok (.vlist []) ∧
      FluxEnergy.get_shell (("shell", Val.none) :: d) = .ok (.vlist [])) ∧
    (d.lookup "radius" = Option.none →
      FluxEnergy.get_radius d = .ok (.vlist []) ∧
      FluxEnergy.get_radius (("radius", Val.none) :: d) = .ok (.vlist [])) ∧
    (d.lookup "shell" = Option.none → d.lookup "radius" = Option.none →
      Observers.get_location d = .ok (.vint 0) ∧
      Observers.get_location (("shell", Val.none) :: ("radius", Val.none) :: d)
        = .ok (.vint 0)) ∧
    (d.lookup "species" = Option.none →
      Observers.get_species d = .ok (.vint 0) ∧
      Observers.get_species (("species", Val.none) :: d) = .ok (.vint 0)) := by
  refine ⟨fun h1 => ⟨?_, ?_⟩, fun h2 => ⟨?_, ?_⟩, fun h3 => ⟨?_, ?_⟩,
    fun h4 h5 => ⟨?_, ?_⟩, fun h6 => ⟨?_, ?_⟩⟩
  · simp [FluxEnergy.get_time, dget, h1]
  · rfl
  · simp [FluxEnergy.get_shell, dget, h2]
  · rfl
  · simp [FluxEnergy.get_radius, dget, h3]
  · rfl
  · simp [Observers.get_location, dget, h4, h5, pyTruthy]
  · rfl
  · simp [Observers.get_species, dget, h6]
  · rfl

/-- Witness for C5 on the empty dictionary and on dictionaries carrying
explicit null markers. -/
theorem normalizers_null_default_witness :
    FluxEnergy.get_time ([] : Dict) = .ok (.vint 0) ∧
    Observers.get_location [("shell", Val.none), ("radius", Val.none)] = .ok (.vint 0) :=
  ⟨((normalizers_null_default []).1 rfl).1,
   ((normalizers_null_default []).2.2.2.1 rfl rfl).2⟩

namespace FluxEnergy

/-- C6: with a base directory and no run selector, `build_paths` returns
the full listing of the base directory's immediate contents when the base
is a directory and every listed child is a directory, and returns the
single base path when some listed child is not a directory. -/
theorem build_paths_dir_inference (fs : FS) (ind : String) :
    (fs.isDir (fs.full ind) = true →
      (∀ c ∈ fs.glob (fs.full ind) "*", fs.isDir c = true) →
      build_paths fs (some ind) Option.none = fs.glob (fs.full ind) "*") ∧
    ((∃ c ∈ fs.glob (fs.full ind) "*", fs.isDir c = false) →
      build_paths fs (some ind) Option.none = [fs.full ind]) := by
  constructor
  · intro hdir hall
    have hA : (fs.glob (fs.full ind) "*").all fs.isDir = true :=
      List.all_eq_true.mpr hall
    simp [build_paths, hdir, hA]
  · rintro ⟨c, hc, hcf⟩
    have hA : (fs.glob (fs.full ind) "*").all fs.isDir = false := by
      rw [List.all_eq_false]
      exact ⟨c, hc, by simp [hcf]⟩
    simp [build_paths, hA]

/-- Witness for C6 on two concrete filesystem views: an all-directory
listing is returned whole; a listing with a plain file collapses to the
base path. -/
theorem build_paths_dir_inference_witness :
    build_paths fsEmptyGlob (some "/base") Option.none = [] ∧
    build_paths fsMixed (some "/base") Option.none = ["/base"] :=
  ⟨(build_paths_dir_inference fsEmptyGlob "/base").1 rfl (by simp [fsEmptyGlob]),
   (build_paths_dir_inference fsMixed "/base").2 ⟨"/base/file", by simp [fsMixed], rfl⟩⟩

/-- C7 counterexample: with a base directory and an explicit single-element
run list, `build_paths` treats the element as a glob pattern — here it
matches nothing, so the result has no entry for the one input name. -/
theorem build_paths_single_glob_counterexample :
    build_paths fsEmptyGlob (some "/base") (some (.list ["run1"])) = [] ∧
    (build_paths fsEmptyGlob (some "/base") (some (.list ["run1"]))).length
      ≠ ["run1"].length :=
  ⟨rfl, by decide⟩

/-- C7 (amended): an explicit list of run names resolves to exactly one
path per name, in the input order and with no existence check, except when
a base directory is given and the list has exactly one element — then that
element is treated as a glob pattern relative to the base and the result is
its list of matches. -/
theorem build_paths_explicit_list (fs : FS) (ind : String) (xs : List String) :
    (build_paths fs Option.none (some (.list xs)) = xs.map fs.full) ∧
    (xs.length ≠ 1 →
      build_paths fs (some ind) (some (.list xs)) = xs.map (pyJoin (fs.full ind))) ∧
    (∀ x, xs = [x] →
      build_paths fs (some ind) (some (.list xs))
        = (fs.glob (fs.full ind) x).map (pyJoin (fs.full ind))) := by
  refine ⟨?_, fun hne => ?_, fun x hx => ?_⟩
  · simp [build_paths]
  · simp [build_paths, Runs.len, Runs.toList, if_neg hne]
  · subst hx
    simp [build_paths, Runs.len, Runs.first]

/-- Witness for the amended C7: a two-name list maps to two joined paths in
order, with or without a base directory. -/
theorem build_paths_explicit_list_witness :
    build_paths fsEmptyGlob Option.none (some (.list ["a", "b"])) = ["a", "b"] ∧
    build_paths fsEmptyGlob (some "/base") (some (.list ["a", "b"]))
      = ["/base/a", "/base/b"] := by
  constructor
  · have h := (build_paths_explicit_list fsEmptyGlob "/base" ["a", "b"]).1
    simpa [fsEmptyGlob] using h
  · have h := (build_paths_explicit_list fsEmptyGlob "/base" ["a", "b"]).2.1 (by decide)
    simpa [fsEmptyGlob, pyJoin] using h

end FluxEnergy

namespace StreamSurvey

/-- Species lookup at index 0 succeeds on a nonempty species list and
yields its head. -/
theorem speciesData_zero (st : Stream) (sp : String) (rest : List String)
    (hst : st.species = sp :: rest) : speciesData st 0 = .ok sp := by
  cases st with
  | mk sps =>
    simp only at hst
    subst hst
    simp [speciesData]

/-- C8: invoking the survey tool with the shell, radius and species entries
all absent or null resolves the location to shell index 0 and the species
to index 0, and the resulting suptitle begins with the literal text
`shell = 0`. -/
theorem default_scenario (st : Stream) (d : Dict) (sp : String) (rest : List String)
    (hsh : dget d "shell" = .none) (hra : dget d "radius" = .none)
    (hsp : dget d "species" = .none) (hst : st.species = sp :: rest) :
    get_location d = .ok (.vint 0) ∧ get_species d = .ok (.vint 0) ∧
    make_suptitle st (.vint 0) (.vint 0)
      = .ok ("shell = 0" ++ (" | " ++ ("species = " ++ sp))) := by
  refine ⟨?_, ?_, ?_⟩
  · simp [get_location, hsh, hra, pyTruthy]
  · simp [get_species, hsp]
  · simp only [make_suptitle, speciesData_zero st sp rest hst]
    rw [String.append_assoc]
    rfl

/-- Witness for C8 on the empty user dictionary and a one-species
stream. -/
theorem default_scenario_witness :
    get_location ([] : Dict) = .ok (.vint 0) ∧
    get_species ([] : Dict) = .ok (.vint 0) ∧
    make_suptitle ⟨["H+"]⟩ (.vint 0) (.vint 0)
      = .ok ("shell = 0" ++ (" | " ++ ("species = H+"))) :=
  default_scenario ⟨["H+"]⟩ [] "H+" [] rfl rfl rfl rfl

/-- C9 counterexample: a well-kinded call — integer location 0, integer
species 5 against a one-species stream — raises `IndexError` rather than
returning a title string, so well-kinded inputs do not always return
without raising. -/
theorem make_suptitle_index_error :
    make_suptitle ⟨["H+"]⟩ (.vint 0) (.vint 5) = .error (.indexError (.vint 5)) := rfl

/-- C9 (amended): `make_suptitle` raises `TypeError` when the location is
neither an integer nor a measurement, when a measurement location is not
single-valued, or — with a well-formed location — when the species is
neither an integer nor a string; an integer species whose lookup in the
stream's species data fails propagates that `IndexError`; in all remaining
well-kinded cases it returns a title string without raising. -/
theorem make_suptitle_cases (st : Stream) (loc spe : Val) :
    ((∀ n, loc ≠ .vint n) → (∀ m, loc ≠ .vmeas m) →
      make_suptitle st loc spe = .error (.typeError loc)) ∧
    (∀ m, loc = .vmeas m → m.magnitudes.length ≠ 1 →
      make_suptitle st loc spe = .error (.typeError loc)) ∧
    (((∃ n, loc = .vint n) ∨ ∃ m q, loc = .vmeas m ∧ m.magnitudes = [q]) →
      (∀ n, spe ≠ .vint n) → (∀ s, spe ≠ .vstr s) →
      make_suptitle st loc spe = .error (.typeError spe)) ∧
    (((∃ n, loc = .vint n) ∨ ∃ m q, loc = .vmeas m ∧ m.magnitudes = [q]) →
      ∀ n e, spe = .vint n → speciesData st n = .error e →
      make_suptitle st loc spe = .error e) ∧
    (((∃ n, loc = .vint n) ∨ ∃ m q, loc = .vmeas m ∧ m.magnitudes = [q]) →
      ((∃ s, spe = .vstr s) ∨ ∃ n sym, spe = .vint n ∧ speciesData st n = .ok sym) →
      ∃ t, make_suptitle st loc spe = .ok t) := by
  refine ⟨fun h1 h2 => ?_, fun m hm hlen => ?_, fun hloc h1 h2 => ?_,
    fun hloc n e hspe hsd => ?_, fun hloc hspe => ?_⟩
  · cases loc with
    | vint n => exact absurd rfl (h1 n)
    | vmeas m => exact absurd rfl (h2 m)
    | none => rfl
    | vfloat q => rfl
    | vstr s => rfl
    | vlist xs => rfl
  · subst hm
    obtain ⟨mags, u⟩ := m
    cases mags with
    | nil => rfl
    | cons q qs =>
      cases qs with
      | nil => simp at hlen
      | cons q2 qs2 => rfl
  · rcases hloc with ⟨n, rfl⟩ | ⟨m, q, rfl, hmq⟩
    · cases spe with
      | vint k => exact absurd rfl (h1 k)
      | vstr s => exact absurd rfl (h2 s)
      | none => rfl
      | vfloat q => rfl
      | vlist xs => rfl
      | vmeas m2 => rfl
    · obtain ⟨mags, u⟩ := m
      simp only at hmq
      subst hmq
      cases spe with
      | vint k => exact absurd rfl (h1 k)
      | vstr s => exact absurd rfl (h2 s)
      | none => rfl
      | vfloat q2 => rfl
      | vlist xs => rfl
      | vmeas m2 => rfl
  · subst hspe
    rcases hloc with ⟨k, rfl⟩ | ⟨m, q, rfl, hmq⟩
    · simp only [make_suptitle, hsd]
    · obtain ⟨mags, u⟩ := m
      simp only at hmq
      subst hmq
      simp only [make_suptitle, hsd, pyFloat]
  · rcases hloc with ⟨n, rfl⟩ | ⟨m, q, rfl, hmq⟩ <;>
      [skip; (obtain ⟨mags, u⟩ := m; simp only at hmq; subst hmq)] <;>
      rcases hspe with ⟨s, rfl⟩ | ⟨k, sym, rfl, hsym⟩
    · exact ⟨_, rfl⟩
    · exact ⟨_, by simp only [make_suptitle, hsym]; rfl⟩
    · exact ⟨_, rfl⟩
    · exact ⟨_, by simp only [make_suptitle, hsym, pyFloat]; rfl⟩

/-- Witness for the amended C9: a badly-kinded species (the null marker)
with a well-formed integer location raises `TypeError` on the species. -/
theorem make_suptitle_cases_witness :
    make_suptitle ⟨["H+"]⟩ (.vint 0) Val.none = .error (.typeError Val.none) :=
  (make_suptitle_cases ⟨["H+"]⟩ (.vint 0) Val.none).2.2.1 (Or.inl ⟨0, rfl⟩)
    (fun _ h => Val.noConfusion h) (fun _ h => Val.noConfusion h)

end StreamSurvey

/-- C10: the survey tool's local copies of `get_location` and `get_species`
agree extensionally — same results and same raising behaviour — with the
copies in `support/observers.py` on every input dictionary. -/
theorem survey_observers_agree (d : Dict) :
    StreamSurvey.get_location d = Observers.get_location d ∧
    StreamSurvey.get_species d = Observers.get_species d :=
  ⟨rfl, rfl⟩
